import Mathlib

/-!
Verification of the booking/availability engine of the hotel management
system (`src/main.py`, class `HotelManager`).

Modelling conventions:
* Dates are ISO `YYYY-MM-DD` strings in the code; lexicographic comparison on
  such strings agrees with chronological order, and `(d2 - d1).days` is the
  difference of day numbers, so dates are embedded as natural numbers
  (day indices).
* Booking and room statuses are the four/three string constants the code
  uses, embedded as inductive types.
* The SQLite store is embedded as in-memory lists of records.  A SQL
  `UPDATE ... WHERE key = ?` updates every row whose key matches, which the
  embedding mirrors with `List.map`; `SELECT ... WHERE key = ?` with
  `fetchone` returns the first matching row, mirrored with `List.find?`.
* `REAL` prices are embedded as rationals.
* The random `_generate_id` is externalized: the freshly generated id is a
  parameter of `add_booking`.  The `booking_id TEXT PRIMARY KEY` column of
  the `bookings` table makes SQLite reject an `INSERT` with a duplicate id,
  so `add_booking` has an explicit duplicate-id rejection branch modelling
  that constraint; all other branches follow the Python function line by
  line.
-/

namespace Hotel

/-- Booking status strings used by the code:
Confirmed, CheckedIn, CheckedOut, Cancelled. -/
inductive BStatus where
  | Confirmed
  | CheckedIn
  | CheckedOut
  | Cancelled
deriving DecidableEq

/-- Room status strings used by the code: Available, Occupied, Maintenance. -/
inductive RStatus where
  | Available
  | Occupied
  | Maintenance
deriving DecidableEq

/-- Row of the `rooms` table. -/
structure Room where
  room_number : String
  type : String
  price : ℚ
  status : RStatus
deriving DecidableEq

/-- Row of the `bookings` table. -/
structure Booking where
  booking_id : String
  customer_id : String
  room_number : String
  check_in_date : ℕ
  check_out_date : ℕ
  status : BStatus
  price_per_night : ℚ
deriving DecidableEq

/-- The persistent store: the `rooms` and `bookings` tables.  The
`customers` table plays no role in any claim and is omitted. -/
structure State where
  rooms : List Room
  bookings : List Booking
deriving DecidableEq

/-- HotelManager.get_room_by_number: first row of `rooms` with the given
room number. -/
def get_room_by_number (s : State) (rn : String) : Option Room :=
  s.rooms.find? (fun r => r.room_number == rn)

/-- HotelManager.get_room_price: the price of the room, or 0 when the room
does not exist. -/
def get_room_price (s : State) (rn : String) : ℚ :=
  match get_room_by_number s rn with
  | some r => r.price
  | none => 0

/-- HotelManager.get_booking_by_id. -/
def get_booking_by_id (s : State) (bid : String) : Option Booking :=
  s.bookings.find? (fun b => b.booking_id == bid)

/-- The `status IN ('Confirmed', 'CheckedIn')` test of the availability
query. -/
def activeStatus : BStatus → Bool
  | .Confirmed => true
  | .CheckedIn => true
  | _ => false

/-- Python truthiness of the optional `booking_id_to_ignore` argument:
`if booking_id_to_ignore:` is false for `None` and for the empty string. -/
def truthyIgnore : Option String → Bool
  | none => false
  | some i => !(i == "")

/-- One row of the `is_room_available` overlap query: the row blocks the
candidate range `[ci, co)` when it is on the same room, has an active
status, satisfies `check_out_date > ci AND check_in_date < co`, and is not
filtered out by the optional `booking_id != ?` clause (which the code adds
only when the argument is truthy). -/
def availBlocks (rn : String) (ci co : ℕ) (ig : Option String) (b : Booking) : Bool :=
  b.room_number == rn && activeStatus b.status &&
    decide (ci < b.check_out_date) && decide (b.check_in_date < co) &&
    (if truthyIgnore ig then !(b.booking_id == ig.getD "") else true)

/-- HotelManager.is_room_available: the room is available when the overlap
count is zero. -/
def is_room_available (s : State) (rn : String) (ci co : ℕ)
    (ig : Option String := none) : Bool :=
  s.bookings.countP (availBlocks rn ci co ig) == 0

/-- HotelManager.update_room_status: `UPDATE rooms SET status = ? WHERE
room_number = ?` (every matching row). -/
def update_room_status (s : State) (rn : String) (st : RStatus) : State :=
  { s with rooms := s.rooms.map (fun r =>
      if r.room_number = rn then { r with status := st } else r) }

/-- HotelManager.update_room_details: `UPDATE rooms SET type = ?, price = ?,
status = ? WHERE room_number = ?`; the Python method returns True. -/
def update_room_details (s : State) (rn newType : String) (newPrice : ℚ)
    (newStatus : RStatus) : Bool × State :=
  (true, { s with rooms := s.rooms.map (fun r =>
      if r.room_number = rn then
        { r with type := newType, price := newPrice, status := newStatus }
      else r) })

/-- HotelManager.add_booking.  Returns the (success, message) pair of the
Python method together with the resulting store.  The generated booking id
is the `new_id` parameter; the duplicate-id branch models the rejection of
the `INSERT` by the `booking_id` PRIMARY KEY constraint of the schema (a
failed insert leaves the store unchanged). -/
def add_booking (s : State) (customer_id rn : String) (ci co : ℕ)
    (new_id : String) (status : BStatus := .Confirmed) : Bool × String × State :=
  if co ≤ ci then
    (false, "Check-out date must be after check-in date.", s)
  else
    match get_room_by_number s rn with
    | none => (false, "Room not found.", s)
    | some _ =>
      if is_room_available s rn ci co then
        if s.bookings.any (fun b => b.booking_id == new_id) then
          (false, "UNIQUE constraint failed: bookings.booking_id", s)
        else
          (true, "Booking " ++ new_id ++ " confirmed.",
            { s with bookings := s.bookings ++
                [{ booking_id := new_id, customer_id := customer_id,
                   room_number := rn, check_in_date := ci, check_out_date := co,
                   status := status, price_per_night := get_room_price s rn }] })
      else
        (false, "Room " ++ rn ++ " is already booked or occupied during this period.", s)

/-- Step 2a of HotelManager.update_booking: if the booking was CheckedIn,
release the old room. -/
def release_old (s : State) (old : Booking) : State :=
  if old.status = BStatus.CheckedIn then
    update_room_status s old.room_number RStatus.Available
  else s

/-- Step 2b of HotelManager.update_booking: if the new status is CheckedIn,
occupy the new room.  The Python `elif` arm for the other new statuses is a
`pass` and has no effect. -/
def claim_new (s : State) (new_rn : String) (new_status : BStatus) : State :=
  if new_status = BStatus.CheckedIn then
    update_room_status s new_rn RStatus.Occupied
  else s

/-- HotelManager.update_booking.  The final `UPDATE bookings ... WHERE
booking_id = ?` rewrites every row whose id matches, with the price re-read
from the current `rooms` table. -/
def update_booking (s : State) (booking_id new_rn : String) (ci co : ℕ)
    (new_status : BStatus) : Bool × String × State :=
  match get_booking_by_id s booking_id with
  | none => (false, "Booking not found.", s)
  | some old =>
    if co ≤ ci then
      (false, "Check-out date must be after check-in date.", s)
    else if is_room_available s new_rn ci co (some booking_id) then
      let s2 := claim_new (release_old s old) new_rn new_status
      (true, "Booking " ++ booking_id ++ " successfully updated.",
        { s2 with bookings := s2.bookings.map (fun b =>
            if b.booking_id = booking_id then
              { b with room_number := new_rn, check_in_date := ci,
                       check_out_date := co, status := new_status,
                       price_per_night := get_room_price s2 new_rn }
            else b) })
    else
      (false, "Room " ++ new_rn ++ " is not available for the new dates/room.", s)

/-- HotelManager.check_in: requires the booking to exist with status
Confirmed; sets the booking to CheckedIn and the room to Occupied. -/
def check_in (s : State) (booking_id : String) : Bool × State :=
  match get_booking_by_id s booking_id with
  | none => (false, s)
  | some b =>
    if b.status = BStatus.Confirmed then
      (true, update_room_status
        { s with bookings := s.bookings.map (fun x =>
            if x.booking_id = booking_id then { x with status := BStatus.CheckedIn } else x) }
        b.room_number RStatus.Occupied)
    else (false, s)

/-- HotelManager.check_out: requires the booking to exist with status
CheckedIn; sets the booking to CheckedOut and the room to Available. -/
def check_out (s : State) (booking_id : String) : Bool × State :=
  match get_booking_by_id s booking_id with
  | none => (false, s)
  | some b =>
    if b.status = BStatus.CheckedIn then
      (true, update_room_status
        { s with bookings := s.bookings.map (fun x =>
            if x.booking_id = booking_id then { x with status := BStatus.CheckedOut } else x) }
        b.room_number RStatus.Available)
    else (false, s)

/-- HotelManager.cancel_booking: requires the booking to exist with status
Confirmed; sets the booking to Cancelled, with no room side effect. -/
def cancel_booking (s : State) (booking_id : String) : Bool × State :=
  match get_booking_by_id s booking_id with
  | none => (false, s)
  | some b =>
    if b.status = BStatus.Confirmed then
      (true, { s with bookings := s.bookings.map (fun x =>
          if x.booking_id = booking_id then { x with status := BStatus.Cancelled } else x) })
    else (false, s)

/-- Accumulator of the report loop of HotelManager.get_reports. -/
structure ReportAcc where
  total_revenue : ℚ
  occupied_nights : ℕ
  completed_bookings : ℕ
  cancelled_bookings : ℕ
deriving DecidableEq

/-- Result record of HotelManager.get_reports. -/
structure Report where
  total_revenue : ℚ
  occupied_nights : ℕ
  completed_bookings : ℕ
  cancelled_bookings : ℕ
  total_nights : ℕ
  occupancy_rate : ℚ
deriving DecidableEq

/-- Revenue arm of the report loop: only CheckedOut bookings contribute
`duration * price` and a completed count, where `duration` is the length of
the overlap of the booking interval with the window. -/
def reportRevenue (S E : ℕ) (b : Booking) (acc : ReportAcc) : ReportAcc :=
  if b.status = BStatus.CheckedOut then
    { acc with
      total_revenue := acc.total_revenue +
        ((min b.check_out_date E - max b.check_in_date S : ℕ) : ℚ) * b.price_per_night,
      completed_bookings := acc.completed_bookings + 1 }
  else acc

/-- Occupancy arm of the report loop: Confirmed, CheckedIn and CheckedOut
bookings contribute their overlap duration as occupied nights. -/
def reportOccupy (S E : ℕ) (b : Booking) (acc : ReportAcc) : ReportAcc :=
  if b.status = BStatus.Confirmed ∨ b.status = BStatus.CheckedIn
      ∨ b.status = BStatus.CheckedOut then
    { acc with occupied_nights :=
        acc.occupied_nights + (min b.check_out_date E - max b.check_in_date S) }
  else acc

/-- Cancellation arm of the report loop: Cancelled bookings whose check-in
date lies in the closed window `[S, E]` are counted.  Like the other two
arms it only runs when the overlap of the booking with the window is
non-empty (it sits inside the `if start < end:` block of the code). -/
def reportCancel (S E : ℕ) (b : Booking) (acc : ReportAcc) : ReportAcc :=
  if b.status = BStatus.Cancelled ∧ S ≤ b.check_in_date ∧ b.check_in_date ≤ E then
    { acc with cancelled_bookings := acc.cancelled_bookings + 1 }
  else acc

/-- One iteration of the booking loop in HotelManager.get_reports: when the
overlap `[max(check_in, S), min(check_out, E))` is non-empty, the three
arms run in order. -/
def reportStep (S E : ℕ) (acc : ReportAcc) (b : Booking) : ReportAcc :=
  if max b.check_in_date S < min b.check_out_date E then
    reportCancel S E b (reportOccupy S E b (reportRevenue S E b acc))
  else acc

/-- HotelManager.get_reports over the window `[S, E)`. -/
def get_reports (s : State) (S E : ℕ) : Report :=
  let acc := s.bookings.foldl (reportStep S E) ⟨0, 0, 0, 0⟩
  let total_nights := s.rooms.length * (E - S)
  { total_revenue := acc.total_revenue,
    occupied_nights := acc.occupied_nights,
    completed_bookings := acc.completed_bookings,
    cancelled_bookings := acc.cancelled_bookings,
    total_nights := total_nights,
    occupancy_rate := if 0 < total_nights then
        (acc.occupied_nights : ℚ) / (total_nights : ℚ) * 100
      else 0 }

/-- One engine operation, as invoked by the UI (add_booking with the default
Confirmed status). -/
inductive Op where
  | add (customer_id rn : String) (ci co : ℕ) (new_id : String)
  | update (booking_id new_rn : String) (ci co : ℕ) (new_status : BStatus)
  | checkin (booking_id : String)
  | checkout (booking_id : String)
  | cancel (booking_id : String)

/-- Run one engine operation, returning its success flag and the resulting
store (the store is returned unchanged by every failing branch). -/
def run (s : State) : Op → Bool × State
  | .add c rn ci co i =>
    let r := add_booking s c rn ci co i
    (r.1, r.2.2)
  | .update bid rn ci co st =>
    let r := update_booking s bid rn ci co st
    (r.1, r.2.2)
  | .checkin bid => check_in s bid
  | .checkout bid => check_out s bid
  | .cancel bid => cancel_booking s bid

/-- Run a sequence of engine operations. -/
def runOps (s : State) : List Op → State
  | [] => s
  | op :: rest => runOps (run s op).2 rest

/-- Check that every operation of the sequence succeeds when run in order. -/
def allSucceed (s : State) : List Op → Bool
  | [] => true
  | op :: rest => (run s op).1 && allSucceed (run s op).2 rest

/-- Two booking rows conflict when they are on the same room, both have an
active status, and their half-open date intervals overlap. -/
def conflict (a b : Booking) : Prop :=
  a.room_number = b.room_number ∧ activeStatus a.status = true ∧
    activeStatus b.status = true ∧
    a.check_in_date < b.check_out_date ∧ b.check_in_date < a.check_out_date

instance (a b : Booking) : Decidable (conflict a b) :=
  inferInstanceAs (Decidable (_ ∧ _ ∧ _ ∧ _ ∧ _))

/-- The double-booking invariant: no two distinct rows of the bookings table
conflict. -/
def NoOverlap (s : State) : Prop :=
  s.bookings.Pairwise (fun a b => ¬ conflict a b)

instance (s : State) : Decidable (NoOverlap s) :=
  inferInstanceAs (Decidable (List.Pairwise _ _))

/-- Well-formedness enforced by the `booking_id` PRIMARY KEY column: the
ids of the booking rows are pairwise distinct. -/
def WF (s : State) : Prop :=
  s.bookings.Pairwise (fun a b => a.booking_id ≠ b.booking_id)

instance (s : State) : Decidable (WF s) :=
  inferInstanceAs (Decidable (List.Pairwise _ _))

/-- Predicate actually counted by the cancellation arm of get_reports: a
Cancelled booking whose check-in lies in `[S, E]` and whose interval
overlaps the window (the loop body only runs when the overlap is
non-empty). -/
def cancelPred (S E : ℕ) (b : Booking) : Bool :=
  decide (b.status = BStatus.Cancelled) && decide (S ≤ b.check_in_date) &&
    decide (b.check_in_date ≤ E) &&
    decide (max b.check_in_date S < min b.check_out_date E)

/-! Concrete states used by the closed check theorems. -/

/-- Sample room 101, rate 100, Available. -/
def room101 : Room :=
  { room_number := "101", type := "Standard", price := 100, status := RStatus.Available }

/-- Sample room 102, rate 150, Available. -/
def room102 : Room :=
  { room_number := "102", type := "Deluxe", price := 150, status := RStatus.Available }

/-- Empty store with one room, for exercising operation sequences. -/
def c1S : State := { rooms := [room101], bookings := [] }

/-- An operation sequence: two adjacent bookings, a check-in, a booking
move, and a check-out. -/
def c1Ops : List Op :=
  [Op.add "C1" "101" 0 10 "B1", Op.add "C2" "101" 12 14 "B2",
   Op.checkin "B1", Op.update "B2" "101" 10 12 BStatus.Confirmed,
   Op.checkout "B1"]

/-- Store holding one Confirmed booking whose id is the empty string. -/
def c2S : State :=
  { rooms := [room101],
    bookings := [{ booking_id := "", customer_id := "C1", room_number := "101",
                   check_in_date := 0, check_out_date := 10,
                   status := BStatus.Confirmed, price_per_night := 100 }] }

/-- Store holding a Cancelled booking and a Confirmed booking with the same
room and dates (legal, since Cancelled bookings do not block). -/
def c3S : State :=
  { rooms := [room101],
    bookings := [{ booking_id := "B1", customer_id := "C1", room_number := "101",
                   check_in_date := 0, check_out_date := 10,
                   status := BStatus.Cancelled, price_per_night := 100 },
                 { booking_id := "B2", customer_id := "C2", room_number := "101",
                   check_in_date := 0, check_out_date := 10,
                   status := BStatus.Confirmed, price_per_night := 100 }] }

/-- Store holding a single Confirmed booking. -/
def c3W : State :=
  { rooms := [room101],
    bookings := [{ booking_id := "B1", customer_id := "C1", room_number := "101",
                   check_in_date := 0, check_out_date := 10,
                   status := BStatus.Confirmed, price_per_night := 100 }] }

/-- Operation sequence: two non-overlapping bookings on room 101, both
checked in, then the first one checked out. -/
def c4Ops : List Op :=
  [Op.add "C1" "101" 0 10 "B1", Op.add "C2" "101" 20 30 "B2",
   Op.checkin "B1", Op.checkin "B2", Op.checkout "B1"]

/-- Store holding a Cancelled booking with check-in 5 and check-out 7. -/
def c8S : State :=
  { rooms := [room101],
    bookings := [{ booking_id := "B1", customer_id := "C1", room_number := "101",
                   check_in_date := 5, check_out_date := 7,
                   status := BStatus.Cancelled, price_per_night := 100 }] }

/-- Store with two rooms of different rates and one Confirmed booking on
room 101 whose snapshot price is the rate of room 101. -/
def c9S : State :=
  { rooms := [room101, room102],
    bookings := [{ booking_id := "B1", customer_id := "C1", room_number := "101",
                   check_in_date := 0, check_out_date := 10,
                   status := BStatus.Confirmed, price_per_night := 100 }] }

/-! Basic lemmas about the embedded operations. -/

theorem activeStatus_iff (st : BStatus) :
    activeStatus st = true ↔ st = BStatus.Confirmed ∨ st = BStatus.CheckedIn := by
  cases st <;> simp [activeStatus]

theorem get_booking_by_id_mem {s : State} {bid : String} {b : Booking}
    (h : get_booking_by_id s bid = some b) : b ∈ s.bookings :=
  List.mem_of_find?_eq_some h

theorem get_booking_by_id_id {s : State} {bid : String} {b : Booking}
    (h : get_booking_by_id s bid = some b) : b.booking_id = bid := by
  have hp := List.find?_some h
  simpa using hp

theorem availBlocks_eq_true_iff (rn : String) (ci co : ℕ) (ig : Option String) (b : Booking) :
    availBlocks rn ci co ig b = true ↔
      b.room_number = rn ∧ activeStatus b.status = true ∧
        ci < b.check_out_date ∧ b.check_in_date < co ∧
        (truthyIgnore ig = true → b.booking_id ≠ ig.getD "") := by
  unfold availBlocks
  by_cases h : truthyIgnore ig = true <;>
    simp [h, and_assoc]

theorem is_room_available_eq_true_iff (s : State) (rn : String) (ci co : ℕ)
    (ig : Option String) :
    is_room_available s rn ci co ig = true ↔
      ∀ b ∈ s.bookings, availBlocks rn ci co ig b = false := by
  unfold is_room_available
  rw [beq_iff_eq, List.countP_eq_zero]
  simp [Bool.not_eq_true]

theorem is_room_available_eq_false_iff (s : State) (rn : String) (ci co : ℕ)
    (ig : Option String) :
    is_room_available s rn ci co ig = false ↔
      ∃ b ∈ s.bookings, availBlocks rn ci co ig b = true := by
  constructor
  · intro hf
    by_contra hne
    push_neg at hne
    have ht : is_room_available s rn ci co ig = true :=
      (is_room_available_eq_true_iff s rn ci co ig).mpr
        (fun b hb => by
          have := hne b hb
          exact Bool.eq_false_iff.mpr this)
    rw [ht] at hf
    cases hf
  · rintro ⟨b, hb, hblocks⟩
    cases hav : is_room_available s rn ci co ig with
    | false => rfl
    | true =>
      have := (is_room_available_eq_true_iff s rn ci co ig).mp hav b hb
      rw [hblocks] at this
      cases this

theorem find_map_statusChange (l : List Room) (rn0 rn : String) (st : RStatus) :
    (l.map (fun r => if r.room_number = rn0 then { r with status := st } else r)).find?
        (fun r => r.room_number == rn) =
      (l.find? (fun r => r.room_number == rn)).map
        (fun r => if r.room_number = rn0 then { r with status := st } else r) := by
  induction l with
  | nil => rfl
  | cons a t ih =>
    have hfa : ((if a.room_number = rn0 then { a with status := st } else a) : Room).room_number
        = a.room_number := by
      split <;> rfl
    simp only [List.map_cons, List.find?_cons, hfa]
    by_cases h : a.room_number = rn
    · have hb : (a.room_number == rn) = true := by simp [h]
      simp [hb]
    · have hb : (a.room_number == rn) = false := by simp [h]
      simp [hb, ih]

theorem get_room_price_update_room_status (s : State) (rn0 : String) (st : RStatus)
    (rn : String) :
    get_room_price (update_room_status s rn0 st) rn = get_room_price s rn := by
  unfold get_room_price get_room_by_number update_room_status
  rw [show ({ s with rooms := s.rooms.map (fun r =>
      if r.room_number = rn0 then { r with status := st } else r) } : State).rooms =
    s.rooms.map (fun r => if r.room_number = rn0 then { r with status := st } else r)
    from rfl]
  rw [find_map_statusChange]
  cases h : s.rooms.find? (fun r => r.room_number == rn) with
  | none => rfl
  | some r => by_cases h0 : r.room_number = rn0 <;> simp [h0]

theorem update_room_status_bookings (s : State) (rn : String) (st : RStatus) :
    (update_room_status s rn st).bookings = s.bookings := rfl

theorem release_old_bookings (s : State) (old : Booking) :
    (release_old s old).bookings = s.bookings := by
  unfold release_old
  split <;> rfl

theorem claim_new_bookings (s : State) (rn : String) (st : BStatus) :
    (claim_new s rn st).bookings = s.bookings := by
  unfold claim_new
  split <;> rfl

theorem get_room_price_release_old (s : State) (old : Booking) (rn : String) :
    get_room_price (release_old s old) rn = get_room_price s rn := by
  unfold release_old
  split
  · exact get_room_price_update_room_status s old.room_number RStatus.Available rn
  · rfl

theorem get_room_price_claim_new (s : State) (rn0 rn : String) (st : BStatus) :
    get_room_price (claim_new s rn0 st) rn = get_room_price s rn := by
  unfold claim_new
  split
  · exact get_room_price_update_room_status s rn0 RStatus.Occupied rn
  · rfl

/-! Pairwise helpers for the double-booking invariant. -/

theorem conflict_symm {a b : Booking} (h : conflict a b) : conflict b a := by
  obtain ⟨h1, h2, h3, h4, h5⟩ := h
  exact ⟨h1.symm, h3, h2, h5, h4⟩

theorem booking_row_unique {s : State} (hwf : WF s) {B a : Booking}
    (hB : B ∈ s.bookings) (ha : a ∈ s.bookings)
    (hid : a.booking_id = B.booking_id) : a = B := by
  by_contra hne
  refine (List.Pairwise.forall ?_ hwf ha hB hne) hid
  intro x y h e
  exact h e.symm

theorem wf_map {l : List Booking} {f : Booking → Booking}
    (hid : ∀ x ∈ l, (f x).booking_id = x.booking_id)
    (hwf : l.Pairwise fun a b => a.booking_id ≠ b.booking_id) :
    (l.map f).Pairwise fun a b => a.booking_id ≠ b.booking_id := by
  rw [List.pairwise_map]
  exact hwf.imp_of_mem (fun {a b} ha hb hne => by
    rw [hid a ha, hid b hb]
    exact hne)

theorem noconflict_map {l : List Booking} {f : Booking → Booking}
    (hpres : ∀ x ∈ l, (f x).room_number = x.room_number ∧
      (f x).check_in_date = x.check_in_date ∧
      (f x).check_out_date = x.check_out_date ∧
      (activeStatus (f x).status = true → activeStatus x.status = true))
    (hno : l.Pairwise fun a b => ¬ conflict a b) :
    (l.map f).Pairwise fun a b => ¬ conflict a b := by
  rw [List.pairwise_map]
  refine hno.imp_of_mem (fun {a b} ha hb hnc hc => ?_)
  obtain ⟨hr, hact1, hact2, h4, h5⟩ := hc
  obtain ⟨ra, ia, oa, sa⟩ := hpres a ha
  obtain ⟨rb, ib, ob, sb⟩ := hpres b hb
  refine hnc ⟨?_, sa hact1, sb hact2, ?_, ?_⟩
  · rw [← ra, ← rb]
    exact hr
  · rw [← ia, ← ob]
    exact h4
  · rw [← ib, ← oa]
    exact h5

/-! Success-branch characterizations and invariant preservation. -/

theorem add_booking_success_eq (s : State) (c rn : String) (ci co : ℕ) (nid : String)
    (r : Room) (hd : ci < co) (hroom : get_room_by_number s rn = some r)
    (hav : is_room_available s rn ci co = true)
    (hfresh : ∀ b ∈ s.bookings, b.booking_id ≠ nid) :
    add_booking s c rn ci co nid =
      (true, "Booking " ++ nid ++ " confirmed.",
        { s with bookings := s.bookings ++
            [{ booking_id := nid, customer_id := c, room_number := rn,
               check_in_date := ci, check_out_date := co,
               status := BStatus.Confirmed, price_per_night := r.price }] }) := by
  unfold add_booking
  rw [if_neg (by omega), hroom]
  rw [if_pos hav, if_neg ?_]
  · have hp : get_room_price s rn = r.price := by
      unfold get_room_price
      rw [hroom]
    rw [hp]
  · simp only [List.any_eq_true, not_exists, not_and]
    intro b hb
    simp [hfresh b hb]

theorem add_booking_preserves (s : State) (c rn : String) (ci co : ℕ) (nid : String)
    (hwf : WF s) (hno : NoOverlap s) :
    WF (add_booking s c rn ci co nid).2.2 ∧ NoOverlap (add_booking s c rn ci co nid).2.2 := by
  unfold add_booking
  split
  · exact ⟨hwf, hno⟩
  split
  · exact ⟨hwf, hno⟩
  split
  · split
    · exact ⟨hwf, hno⟩
    · rename_i hd hr hav hdup
      have hfresh : ∀ b ∈ s.bookings, b.booking_id ≠ nid := by
        intro b hb he
        exact hdup (List.any_eq_true.mpr ⟨b, hb, by simp [he]⟩)
      constructor
      · show (s.bookings ++ [_]).Pairwise _
        rw [List.pairwise_append]
        refine ⟨hwf, List.pairwise_singleton _ _, ?_⟩
        intro a ha y hy
        rw [List.mem_singleton] at hy
        subst hy
        exact hfresh a ha
      · show (s.bookings ++ [_]).Pairwise _
        rw [List.pairwise_append]
        refine ⟨hno, List.pairwise_singleton _ _, ?_⟩
        intro a ha y hy hc
        rw [List.mem_singleton] at hy
        subst hy
        obtain ⟨h1, h2, h3, h4, h5⟩ := hc
        have hblocks : availBlocks rn ci co none a = true := by
          rw [availBlocks_eq_true_iff]
          exact ⟨h1, h2, h5, h4, by intro ht; cases ht⟩
        have := (is_room_available_eq_true_iff s rn ci co none).mp hav a ha
        rw [hblocks] at this
        cases this
  · exact ⟨hwf, hno⟩

theorem update_map_noconflict (s : State) (bid rn : String) (ci co : ℕ) (nst : BStatus)
    (p : ℚ) (hwf : WF s) (hno : NoOverlap s)
    (hav : is_room_available s rn ci co (some bid) = true) :
    (s.bookings.map (fun b =>
      if b.booking_id = bid then
        { b with room_number := rn, check_in_date := ci, check_out_date := co,
                 status := nst, price_per_night := p }
      else b)).Pairwise (fun a b => ¬ conflict a b) := by
  rw [List.pairwise_map]
  refine (hwf.and hno).imp_of_mem (fun {a b} ha hb hab hc => ?_)
  obtain ⟨hne, hnc⟩ := hab
  by_cases hA : a.booking_id = bid <;> by_cases hB : b.booking_id = bid
  · exact hne (hA.trans hB.symm)
  · rw [if_pos hA, if_neg hB] at hc
    obtain ⟨h1, h2, h3, h4, h5⟩ := hc
    have hblocks : availBlocks rn ci co (some bid) b = true := by
      rw [availBlocks_eq_true_iff]
      exact ⟨h1.symm, h3, h4, h5, fun _ => hB⟩
    have := (is_room_available_eq_true_iff s rn ci co (some bid)).mp hav b hb
    rw [hblocks] at this
    cases this
  · rw [if_neg hA, if_pos hB] at hc
    obtain ⟨h1, h2, h3, h4, h5⟩ := conflict_symm hc
    have hblocks : availBlocks rn ci co (some bid) a = true := by
      rw [availBlocks_eq_true_iff]
      exact ⟨h1.symm, h3, h4, h5, fun _ => hA⟩
    have := (is_room_available_eq_true_iff s rn ci co (some bid)).mp hav a ha
    rw [hblocks] at this
    cases this
  · rw [if_neg hA, if_neg hB] at hc
    exact hnc hc

theorem update_booking_preserves (s : State) (bid rn : String) (ci co : ℕ) (nst : BStatus)
    (hwf : WF s) (hno : NoOverlap s) :
    WF (update_booking s bid rn ci co nst).2.2 ∧
      NoOverlap (update_booking s bid rn ci co nst).2.2 := by
  unfold update_booking
  split
  · exact ⟨hwf, hno⟩
  split
  · exact ⟨hwf, hno⟩
  split
  · rename_i old hold hdate hav
    constructor
    · show ((claim_new (release_old s old) rn nst).bookings.map _).Pairwise _
      rw [claim_new_bookings, release_old_bookings]
      refine wf_map ?_ hwf
      intro x hx
      split <;> rfl
    · show ((claim_new (release_old s old) rn nst).bookings.map _).Pairwise _
      rw [claim_new_bookings, release_old_bookings]
      exact update_map_noconflict s bid rn ci co nst _ hwf hno hav
  · exact ⟨hwf, hno⟩

theorem check_in_preserves (s : State) (bid : String) (hwf : WF s) (hno : NoOverlap s) :
    WF (check_in s bid).2 ∧ NoOverlap (check_in s bid).2 := by
  unfold check_in
  split
  · exact ⟨hwf, hno⟩
  rename_i b hb
  split
  · rename_i hconf
    constructor
    · refine wf_map ?_ hwf
      intro x hx
      split <;> rfl
    · refine noconflict_map ?_ hno
      intro x hx
      by_cases hxid : x.booking_id = bid
      · have hxb : x = b := booking_row_unique hwf (get_booking_by_id_mem hb) hx
          (hxid.trans (get_booking_by_id_id hb).symm)
        rw [if_pos hxid]
        refine ⟨rfl, rfl, rfl, fun _ => ?_⟩
        rw [hxb, hconf]
        rfl
      · rw [if_neg hxid]
        exact ⟨rfl, rfl, rfl, fun h => h⟩
  · exact ⟨hwf, hno⟩

theorem check_out_preserves (s : State) (bid : String) (hwf : WF s) (hno : NoOverlap s) :
    WF (check_out s bid).2 ∧ NoOverlap (check_out s bid).2 := by
  unfold check_out
  split
  · exact ⟨hwf, hno⟩
  rename_i b hb
  split
  · constructor
    · refine wf_map ?_ hwf
      intro x hx
      split <;> rfl
    · refine noconflict_map ?_ hno
      intro x hx
      by_cases hxid : x.booking_id = bid
      · rw [if_pos hxid]
        exact ⟨rfl, rfl, rfl, fun h => Bool.noConfusion h⟩
      · rw [if_neg hxid]
        exact ⟨rfl, rfl, rfl, fun h => h⟩
  · exact ⟨hwf, hno⟩

theorem cancel_booking_preserves (s : State) (bid : String) (hwf : WF s) (hno : NoOverlap s) :
    WF (cancel_booking s bid).2 ∧ NoOverlap (cancel_booking s bid).2 := by
  unfold cancel_booking
  split
  · exact ⟨hwf, hno⟩
  rename_i b hb
  split
  · constructor
    · refine wf_map ?_ hwf
      intro x hx
      split <;> rfl
    · refine noconflict_map ?_ hno
      intro x hx
      by_cases hxid : x.booking_id = bid
      · rw [if_pos hxid]
        exact ⟨rfl, rfl, rfl, fun h => Bool.noConfusion h⟩
      · rw [if_neg hxid]
        exact ⟨rfl, rfl, rfl, fun h => h⟩
  · exact ⟨hwf, hno⟩

theorem run_preserves (s : State) (op : Op) (hwf : WF s) (hno : NoOverlap s) :
    WF (run s op).2 ∧ NoOverlap (run s op).2 := by
  cases op with
  | add c rn ci co i => exact add_booking_preserves s c rn ci co i hwf hno
  | update bid rn ci co st => exact update_booking_preserves s bid rn ci co st hwf hno
  | checkin bid => exact check_in_preserves s bid hwf hno
  | checkout bid => exact check_out_preserves s bid hwf hno
  | cancel bid => exact cancel_booking_preserves s bid hwf hno

theorem runOps_preserves (s : State) (ops : List Op) (hwf : WF s) (hno : NoOverlap s) :
    WF (runOps s ops) ∧ NoOverlap (runOps s ops) := by
  induction ops generalizing s with
  | nil => exact ⟨hwf, hno⟩
  | cons op rest ih =>
    have h := run_preserves s op hwf hno
    exact ih (run s op).2 h.1 h.2

/-- In a store satisfying the no-overlap invariant, an active booking with
a non-empty id never blocks its own room/date range once it is excluded
from the availability query. -/
theorem self_no_block (s : State) (B : Booking) (hno : NoOverlap s)
    (hmem : B ∈ s.bookings) (hact : activeStatus B.status = true)
    (hid : B.booking_id ≠ "") :
    is_room_available s B.room_number B.check_in_date B.check_out_date
      (some B.booking_id) = true := by
  rw [is_room_available_eq_true_iff]
  intro b hb
  cases hblk : availBlocks B.room_number B.check_in_date B.check_out_date
      (some B.booking_id) b with
  | false => rfl
  | true =>
    exfalso
    rw [availBlocks_eq_true_iff] at hblk
    obtain ⟨h1, h2, h3, h4, h5⟩ := hblk
    have htruthy : truthyIgnore (some B.booking_id) = true := by
      simp [truthyIgnore, hid]
    have hbne : b.booking_id ≠ B.booking_id := by
      have := h5 htruthy
      simpa using this
    have hne : b ≠ B := fun he => hbne (by rw [he])
    have hnc : ¬ conflict b B := by
      refine List.Pairwise.forall ?_ hno hb hmem hne
      intro x y hn hc
      exact hn (conflict_symm hc)
    exact hnc ⟨h1, h2, hact, h4, h3⟩

/-- The self-exclusion clause of the availability query, rephrased at the
specification level: it filters by id only when the optional excluded id is
present and non-empty. -/
theorem ignore_clause_iff (ig : Option String) (b : Booking) :
    (truthyIgnore ig = true → b.booking_id ≠ ig.getD "") ↔
      (∀ i : String, ig = some i → i ≠ "" → b.booking_id ≠ i) := by
  cases ig with
  | none => simp [truthyIgnore]
  | some i =>
    by_cases hi : i = ""
    · subst hi
      simp [truthyIgnore]
    · simp [truthyIgnore, hi]

/-! Lemmas about the report fold. -/

theorem reportRevenue_cancelled (S E : ℕ) (b : Booking) (acc : ReportAcc) :
    (reportRevenue S E b acc).cancelled_bookings = acc.cancelled_bookings := by
  unfold reportRevenue
  split <;> rfl

theorem reportOccupy_cancelled (S E : ℕ) (b : Booking) (acc : ReportAcc) :
    (reportOccupy S E b acc).cancelled_bookings = acc.cancelled_bookings := by
  unfold reportOccupy
  split <;> rfl

theorem reportStep_cancelled (S E : ℕ) (acc : ReportAcc) (b : Booking) :
    (reportStep S E acc b).cancelled_bookings =
      acc.cancelled_bookings + (if cancelPred S E b then 1 else 0) := by
  unfold reportStep reportCancel
  by_cases hov : max b.check_in_date S < min b.check_out_date E
  · rw [if_pos hov]
    by_cases hc : b.status = BStatus.Cancelled ∧ S ≤ b.check_in_date ∧ b.check_in_date ≤ E
    · rw [if_pos hc]
      have hq : cancelPred S E b = true := by
        unfold cancelPred
        simp only [Bool.and_eq_true, decide_eq_true_eq]
        exact ⟨⟨⟨hc.1, hc.2.1⟩, hc.2.2⟩, hov⟩
      rw [if_pos hq]
      show (reportOccupy S E b (reportRevenue S E b acc)).cancelled_bookings + 1 = _
      rw [reportOccupy_cancelled, reportRevenue_cancelled]
    · rw [if_neg hc]
      have hq : ¬ (cancelPred S E b = true) := by
        unfold cancelPred
        simp only [Bool.and_eq_true, decide_eq_true_eq]
        rintro ⟨⟨⟨hc1, hc2⟩, hc3⟩, _⟩
        exact hc ⟨hc1, hc2, hc3⟩
      rw [if_neg hq, reportOccupy_cancelled, reportRevenue_cancelled]
      omega
  · rw [if_neg hov]
    have hq : ¬ (cancelPred S E b = true) := by
      unfold cancelPred
      simp only [Bool.and_eq_true, decide_eq_true_eq]
      rintro ⟨_, hc4⟩
      exact hov hc4
    rw [if_neg hq]
    omega

theorem foldl_reportStep_cancelled (S E : ℕ) (l : List Booking) (acc : ReportAcc) :
    (l.foldl (reportStep S E) acc).cancelled_bookings =
      acc.cancelled_bookings + l.countP (cancelPred S E) := by
  induction l generalizing acc with
  | nil => simp
  | cons b t ih =>
    rw [List.foldl_cons, ih, List.countP_cons, reportStep_cancelled]
    by_cases h : cancelPred S E b = true
    · rw [if_pos h]
      omega
    · rw [if_neg h]
      omega

/-! Claim theorems. -/

/-- Claim C1: starting from any well-formed store (pairwise distinct
booking ids, as enforced by the bookings PRIMARY KEY) in which no two
distinct active bookings on the same room have overlapping half-open
intervals, any sequence of engine operations (add_booking, update_booking,
check_in, check_out, cancel_booking — failing calls leave the store
unchanged, so the sequence covers exactly the successful mutations)
preserves the no-overlap property. -/
theorem c1_no_overlap_preserved (s : State) (ops : List Op)
    (hwf : WF s) (hno : NoOverlap s) : NoOverlap (runOps s ops) :=
  (runOps_preserves s ops hwf hno).2

/-- Witness for C1 at a concrete store and operation sequence. -/
theorem c1_no_overlap_preserved_witness : NoOverlap (runOps c1S c1Ops) :=
  c1_no_overlap_preserved c1S c1Ops (by decide) (by decide)

/-- Counterexample to claim C2 as stated: take the excluded booking id to
be the empty string and a store whose only booking is Confirmed,
overlapping, and has the empty string as id.  The claimed characterization
finds no blocking booking (its id is not different from the excluded id),
so it predicts the room is available, yet is_room_available returns false:
the code tests the truthiness of the exclusion argument, an empty string is
falsy, and no exclusion happens. -/
theorem c2_counterexample :
    is_room_available c2S "101" 0 10 (some "") = false ∧
      ¬ ∃ b ∈ c2S.bookings, b.room_number = "101" ∧
          (b.status = BStatus.Confirmed ∨ b.status = BStatus.CheckedIn) ∧
          b.booking_id ≠ "" ∧ 0 < b.check_out_date ∧ b.check_in_date < 10 := by
  decide

/-- Claim C2 (amended): is_room_available(room, s, e, exclude) returns
false iff some booking on the room with status Confirmed or CheckedIn has
checkOut > s and checkIn < e and, whenever the excluded id is present and
non-empty, an id different from it (an absent or empty-string excluded id
performs no exclusion); in particular adjacent bookings (checkOut = s or
checkIn = e) and Cancelled or CheckedOut bookings never make a room
unavailable. -/
theorem c2_availability_contract (s : State) (rn : String) (ci co : ℕ)
    (ig : Option String) :
    is_room_available s rn ci co ig = false ↔
      ∃ b ∈ s.bookings, b.room_number = rn ∧
        (b.status = BStatus.Confirmed ∨ b.status = BStatus.CheckedIn) ∧
        (∀ i : String, ig = some i → i ≠ "" → b.booking_id ≠ i) ∧
        ci < b.check_out_date ∧ b.check_in_date < co := by
  rw [is_room_available_eq_false_iff]
  constructor
  · rintro ⟨b, hb, hblk⟩
    rw [availBlocks_eq_true_iff] at hblk
    obtain ⟨h1, h2, h3, h4, h5⟩ := hblk
    exact ⟨b, hb, h1, (activeStatus_iff b.status).mp h2,
      (ignore_clause_iff ig b).mp h5, h3, h4⟩
  · rintro ⟨b, hb, h1, h2, h5, h3, h4⟩
    refine ⟨b, hb, ?_⟩
    rw [availBlocks_eq_true_iff]
    exact ⟨h1, (activeStatus_iff b.status).mpr h2, h3, h4,
      (ignore_clause_iff ig b).mpr h5⟩

/-- Witness instantiating C2 at a concrete store: an overlapping Confirmed
booking makes the room unavailable even when a different id is excluded. -/
theorem c2_availability_contract_witness :
    is_room_available c3W "101" 0 10 (some "B9") = false := by
  rw [c2_availability_contract]
  decide

/-- Counterexample to claim C3 as stated: the Cancelled booking B1 exists
with the given stored room, dates and status, yet the no-op modification of
B1 (same id, room, dates and status) fails: the availability check, which
ignores only B1 itself, sees the active booking B2 on the same room and
dates. -/
theorem c3_counterexample :
    get_booking_by_id c3S "B1" =
      some { booking_id := "B1", customer_id := "C1", room_number := "101",
             check_in_date := 0, check_out_date := 10,
             status := BStatus.Cancelled, price_per_night := 100 } ∧
    (update_booking c3S "B1" "101" 0 10 BStatus.Cancelled).1 = false := by
  decide

/-- Claim C3 (amended): for every active (Confirmed or CheckedIn) booking B
with a non-empty id and check-in strictly before check-out, in a store
satisfying the no-overlap invariant, the no-op modification with the same
room, dates and status always succeeds: the self-exclusion prevents the
stored row of B from blocking, and the invariant rules out any other active
blocker. -/
theorem c3_noop_update_succeeds (s : State) (B : Booking) (hno : NoOverlap s)
    (hfind : get_booking_by_id s B.booking_id = some B)
    (hact : activeStatus B.status = true) (hid : B.booking_id ≠ "")
    (hd : B.check_in_date < B.check_out_date) :
    (update_booking s B.booking_id B.room_number B.check_in_date
      B.check_out_date B.status).1 = true := by
  unfold update_booking
  simp only [hfind]
  rw [if_neg (by omega)]
  rw [if_pos (self_no_block s B hno (get_booking_by_id_mem hfind) hact hid)]

/-- Witness for C3 at a concrete store with one Confirmed booking. -/
theorem c3_noop_update_succeeds_witness :
    (update_booking c3W "B1" "101" 0 10 BStatus.Confirmed).1 = true :=
  c3_noop_update_succeeds c3W
    { booking_id := "B1", customer_id := "C1", room_number := "101",
      check_in_date := 0, check_out_date := 10,
      status := BStatus.Confirmed, price_per_night := 100 }
    (by decide) (by decide) (by decide) (by decide) (by decide)

/-- Claim C4 is violated by the code: running the everywhere-successful
sequence c4Ops from the one-room store c1S leaves booking B2 CheckedIn on
room 101 while the stored status of room 101 is Available.  The check_out
of B1 unconditionally sets the room of the checked-out booking to Available
without looking for other CheckedIn bookings on it, so the claimed
Occupied-iff-some-CheckedIn correspondence breaks in a reachable state. -/
theorem c4_room_status_bug :
    allSucceed c1S c4Ops = true ∧
    (∃ b ∈ (runOps c1S c4Ops).bookings,
      b.room_number = "101" ∧ b.status = BStatus.CheckedIn) ∧
    get_room_by_number (runOps c1S c4Ops) "101" =
      some { room_number := "101", type := "Standard", price := 100,
             status := RStatus.Available } := by
  decide

/-- Claim C5: add_booking applies its preconditions in order and fails
without mutating anything — invalid date range first, then missing room,
then unavailability — and on success (with a generated id that is fresh, as
the PRIMARY KEY demands) appends a booking with status Confirmed and the
current room rate snapshotted as price_per_night, leaving the rooms table
(hence every room status) unchanged. -/
theorem c5_add_booking_contract (s : State) (c rn : String) (ci co : ℕ)
    (nid : String) :
    (co ≤ ci → add_booking s c rn ci co nid =
      (false, "Check-out date must be after check-in date.", s)) ∧
    (ci < co → get_room_by_number s rn = none → add_booking s c rn ci co nid =
      (false, "Room not found.", s)) ∧
    (∀ r : Room, ci < co → get_room_by_number s rn = some r →
      is_room_available s rn ci co = false →
      add_booking s c rn ci co nid =
        (false, "Room " ++ rn ++ " is already booked or occupied during this period.", s)) ∧
    (∀ r : Room, ci < co → get_room_by_number s rn = some r →
      is_room_available s rn ci co = true →
      (∀ b ∈ s.bookings, b.booking_id ≠ nid) →
      add_booking s c rn ci co nid =
        (true, "Booking " ++ nid ++ " confirmed.",
          { rooms := s.rooms,
            bookings := s.bookings ++
              [{ booking_id := nid, customer_id := c, room_number := rn,
                 check_in_date := ci, check_out_date := co,
                 status := BStatus.Confirmed, price_per_night := r.price }] })) := by
  refine ⟨?_, ?_, ?_, ?_⟩
  · intro h
    unfold add_booking
    rw [if_pos h]
  · intro h hroom
    unfold add_booking
    rw [if_neg (by omega)]
    simp only [hroom]
  · intro r h hroom hav
    unfold add_booking
    rw [if_neg (by omega)]
    simp only [hroom]
    rw [if_neg (by simp [hav])]
  · intro r h hroom hav hfresh
    exact add_booking_success_eq s c rn ci co nid r h hroom hav hfresh

/-- Witness for C5: a successful creation on the concrete one-room store,
snapshotting rate 100 and leaving the rooms table unchanged. -/
theorem c5_add_booking_contract_witness :
    add_booking c1S "C1" "101" 0 10 "B1" =
      (true, "Booking " ++ "B1" ++ " confirmed.",
        { rooms := c1S.rooms,
          bookings := c1S.bookings ++
            [{ booking_id := "B1", customer_id := "C1", room_number := "101",
               check_in_date := 0, check_out_date := 10,
               status := BStatus.Confirmed, price_per_night := room101.price }] }) :=
  (c5_add_booking_contract c1S "C1" "101" 0 10 "B1").2.2.2 room101
    (by decide) (by decide) (by decide) (by decide)

/-- Claim C6: with the booking present in the store, check_in succeeds
exactly when its status is Confirmed, check_out exactly when CheckedIn,
cancel_booking exactly when Confirmed, and every failing call returns the
store unchanged (explicit False result, no silent success). -/
theorem c6_transition_guards (s : State) (bid : String) (b : Booking)
    (hb : get_booking_by_id s bid = some b) :
    ((check_in s bid).1 = true ↔ b.status = BStatus.Confirmed) ∧
    ((check_out s bid).1 = true ↔ b.status = BStatus.CheckedIn) ∧
    ((cancel_booking s bid).1 = true ↔ b.status = BStatus.Confirmed) ∧
    ((check_in s bid).1 = false → (check_in s bid).2 = s) ∧
    ((check_out s bid).1 = false → (check_out s bid).2 = s) ∧
    ((cancel_booking s bid).1 = false → (cancel_booking s bid).2 = s) := by
  unfold check_in check_out cancel_booking
  simp only [hb]
  cases hst : b.status <;> simp [hst]

/-- Witness for C6 at a store holding one Confirmed booking: check-in is
allowed, check-out is refused (and mutates nothing), cancel is allowed. -/
theorem c6_transition_guards_witness :
    (check_in c3W "B1").1 = true ∧ (check_out c3W "B1").1 = false ∧
      (check_out c3W "B1").2 = c3W := by
  have h := c6_transition_guards c3W "B1"
    { booking_id := "B1", customer_id := "C1", room_number := "101",
      check_in_date := 0, check_out_date := 10,
      status := BStatus.Confirmed, price_per_night := 100 } (by decide)
  exact ⟨h.1.mpr rfl, by decide, h.2.2.2.2.1 (by decide)⟩

/-- Every branch of add_booking either reports success or returns the
store unchanged. -/
theorem add_booking_state_or_true (s : State) (c rn : String) (ci co : ℕ)
    (nid : String) :
    (add_booking s c rn ci co nid).1 = true ∨
      (add_booking s c rn ci co nid).2.2 = s := by
  unfold add_booking
  split
  · exact Or.inr rfl
  split
  · exact Or.inr rfl
  split
  · split
    · exact Or.inr rfl
    · exact Or.inl rfl
  · exact Or.inr rfl

/-- Every branch of update_booking either reports success or returns the
store unchanged. -/
theorem update_booking_state_or_true (s : State) (bid rn : String) (ci co : ℕ)
    (st : BStatus) :
    (update_booking s bid rn ci co st).1 = true ∨
      (update_booking s bid rn ci co st).2.2 = s := by
  unfold update_booking
  split
  · exact Or.inr rfl
  split
  · exact Or.inr rfl
  split
  · exact Or.inl rfl
  · exact Or.inr rfl

/-- Every branch of check_in either reports success or returns the store
unchanged. -/
theorem check_in_state_or_true (s : State) (bid : String) :
    (check_in s bid).1 = true ∨ (check_in s bid).2 = s := by
  unfold check_in
  split
  · exact Or.inr rfl
  split
  · exact Or.inl rfl
  · exact Or.inr rfl

/-- Every branch of check_out either reports success or returns the store
unchanged. -/
theorem check_out_state_or_true (s : State) (bid : String) :
    (check_out s bid).1 = true ∨ (check_out s bid).2 = s := by
  unfold check_out
  split
  · exact Or.inr rfl
  split
  · exact Or.inl rfl
  · exact Or.inr rfl

/-- Every branch of cancel_booking either reports success or returns the
store unchanged. -/
theorem cancel_booking_state_or_true (s : State) (bid : String) :
    (cancel_booking s bid).1 = true ∨ (cancel_booking s bid).2 = s := by
  unfold cancel_booking
  split
  · exact Or.inr rfl
  split
  · exact Or.inl rfl
  · exact Or.inr rfl

/-- Claim C7: whenever an engine operation reports failure, the resulting
store (every booking row and every room row) is exactly the store before
the call. -/
theorem c7_failure_no_mutation (s : State) (op : Op)
    (h : (run s op).1 = false) : (run s op).2 = s := by
  cases op with
  | add c rn ci co i =>
    rcases add_booking_state_or_true s c rn ci co i with ht | hs
    · have h2 : (add_booking s c rn ci co i).1 = false := h
      rw [ht] at h2
      cases h2
    · exact hs
  | update bid rn ci co st =>
    rcases update_booking_state_or_true s bid rn ci co st with ht | hs
    · have h2 : (update_booking s bid rn ci co st).1 = false := h
      rw [ht] at h2
      cases h2
    · exact hs
  | checkin bid =>
    rcases check_in_state_or_true s bid with ht | hs
    · have h2 : (check_in s bid).1 = false := h
      rw [ht] at h2
      cases h2
    · exact hs
  | checkout bid =>
    rcases check_out_state_or_true s bid with ht | hs
    · have h2 : (check_out s bid).1 = false := h
      rw [ht] at h2
      cases h2
    · exact hs
  | cancel bid =>
    rcases cancel_booking_state_or_true s bid with ht | hs
    · have h2 : (cancel_booking s bid).1 = false := h
      rw [ht] at h2
      cases h2
    · exact hs

/-- Witness for C7: a failing check-in (unknown booking id) leaves the
concrete store untouched. -/
theorem c7_failure_no_mutation_witness : (run c1S (Op.checkin "ZZ")).2 = c1S :=
  c7_failure_no_mutation c1S (Op.checkin "ZZ") (by decide)

/-- Counterexample to claim C8 as stated: for the window [0, 5) the store
c8S contains exactly one Cancelled booking, with check-in 5 (which lies in
the inclusive window [0, 5]) and check-out 7, so the claim counts it; yet
get_reports returns a cancelled count of 0, because the cancellation branch
only runs when the booking interval overlaps the window and
max(5,0) < min(7,5) fails. -/
theorem c8_counterexample :
    (0 : ℕ) < 5 ∧
    (get_reports c8S 0 5).cancelled_bookings = 0 ∧
    c8S.bookings.countP (fun b => decide (b.status = BStatus.Cancelled) &&
      decide (0 ≤ b.check_in_date) && decide (b.check_in_date ≤ 5)) = 1 := by
  decide

/-- Claim C8 (amended): for every window [S, E) with S < E, get_reports
counts as cancelled exactly the Cancelled bookings whose check-in lies in
[S, E] and whose interval also overlaps the window (the count is gated on
overlap, not independent of it), and the occupancy rate is occupied-nights
divided by room-count times window-length, times 100, with 0 when that
denominator is 0. -/
theorem c8_reports_contract (s : State) (S E : ℕ) (hSE : S < E) :
    (get_reports s S E).cancelled_bookings = s.bookings.countP (cancelPred S E) ∧
    (get_reports s S E).occupancy_rate =
      (if 0 < s.rooms.length * (E - S) then
        ((get_reports s S E).occupied_nights : ℚ) /
          ((s.rooms.length * (E - S) : ℕ) : ℚ) * 100
      else 0) := by
  constructor
  · show (s.bookings.foldl (reportStep S E) ⟨0, 0, 0, 0⟩).cancelled_bookings =
      s.bookings.countP (cancelPred S E)
    rw [foldl_reportStep_cancelled]
    exact Nat.zero_add _
  · rfl

/-- Witness for C8 at the concrete store c8S and the window [0, 5). -/
theorem c8_reports_contract_witness :
    (get_reports c8S 0 5).cancelled_bookings = c8S.bookings.countP (cancelPred 0 5) ∧
    (get_reports c8S 0 5).occupancy_rate =
      (if 0 < c8S.rooms.length * (5 - 0) then
        ((get_reports c8S 0 5).occupied_nights : ℚ) /
          ((c8S.rooms.length * (5 - 0) : ℕ) : ℚ) * 100
      else 0) :=
  c8_reports_contract c8S 0 5 (by decide)

/-- Claim C9: a successful update_booking always re-snapshots the stored
price of the modified booking row from the current rate of the destination
room (get_room_price at call time), while update_room_details — the only
rate mutation — never touches any booking row, so a creation-time snapshot
is never retroactively recomputed when the room rate later changes. -/
theorem c9_price_resnapshot :
    (∀ (s : State) (bid rn : String) (ci co : ℕ) (nst : BStatus) (msg : String)
      (s2 : State), update_booking s bid rn ci co nst = (true, msg, s2) →
      ∀ b ∈ s2.bookings, b.booking_id = bid →
        b.price_per_night = get_room_price s rn) ∧
    (∀ (s : State) (rn newType : String) (newPrice : ℚ) (newStatus : RStatus),
      ((update_room_details s rn newType newPrice newStatus).2).bookings =
        s.bookings) := by
  constructor
  · intro s bid rn ci co nst msg s2 h b hb hbid
    unfold update_booking at h
    split at h
    · simp at h
    rename_i old hold
    split at h
    · simp at h
    split at h
    · rename_i hav
      injection h with h1 h2
      injection h2 with h2a h2b
      subst h2b
      have hb2 : b ∈ ((claim_new (release_old s old) rn nst).bookings.map
          (fun x => if x.booking_id = bid then
            { x with room_number := rn, check_in_date := ci, check_out_date := co,
                     status := nst,
                     price_per_night :=
                       get_room_price (claim_new (release_old s old) rn nst) rn }
          else x)) := hb
      rw [claim_new_bookings, release_old_bookings, List.mem_map] at hb2
      obtain ⟨y, hy, hfy⟩ := hb2
      by_cases hyid : y.booking_id = bid
      · rw [← hfy, if_pos hyid]
        show get_room_price (claim_new (release_old s old) rn nst) rn =
          get_room_price s rn
        rw [get_room_price_claim_new, get_room_price_release_old]
      · rw [← hfy, if_neg hyid] at hbid
        exact absurd hbid hyid
    · simp at h
  · intro s rn newType newPrice newStatus
    rfl

/-- Witness for C9: moving the concrete booking B1 to room 102 stores the
current rate of room 102 as its price. -/
theorem c9_price_resnapshot_witness :
    ∀ b ∈ (update_booking c9S "B1" "102" 0 10 BStatus.Confirmed).2.2.bookings,
      b.booking_id = "B1" → b.price_per_night = get_room_price c9S "102" := by
  have h1 : (update_booking c9S "B1" "102" 0 10 BStatus.Confirmed).1 = true := by
    decide
  intro b hb hbid
  refine c9_price_resnapshot.1 c9S "B1" "102" 0 10 BStatus.Confirmed
    (update_booking c9S "B1" "102" 0 10 BStatus.Confirmed).2.1
    (update_booking c9S "B1" "102" 0 10 BStatus.Confirmed).2.2 ?_ b hb hbid
  rw [← h1]

/-- Claim C10: update_booking never checks that the destination room
exists: with the booking present, valid dates, a destination room id having
no room record, and no booking rows on that destination room id, the
modification succeeds and every stored row of that booking carries
price_per_night 0 (the value get_room_price yields for a missing room),
with no room-not-found error. -/
theorem c10_ghost_room_update (s : State) (bid rn : String) (ci co : ℕ)
    (nst : BStatus) (b : Booking)
    (hfind : get_booking_by_id s bid = some b) (hd : ci < co)
    (hroom : get_room_by_number s rn = none)
    (hnobk : ∀ x ∈ s.bookings, x.room_number ≠ rn) :
    (update_booking s bid rn ci co nst).1 = true ∧
    ∀ x ∈ (update_booking s bid rn ci co nst).2.2.bookings,
      x.booking_id = bid → x.price_per_night = 0 := by
  have hav : is_room_available s rn ci co (some bid) = true := by
    rw [is_room_available_eq_true_iff]
    intro x hx
    cases hblk : availBlocks rn ci co (some bid) x with
    | false => rfl
    | true =>
      exfalso
      rw [availBlocks_eq_true_iff] at hblk
      exact hnobk x hx hblk.1
  have hprice : get_room_price (claim_new (release_old s b) rn nst) rn = 0 := by
    rw [get_room_price_claim_new, get_room_price_release_old]
    unfold get_room_price
    rw [hroom]
  unfold update_booking
  simp only [hfind]
  rw [if_neg (by omega), if_pos hav]
  refine ⟨rfl, ?_⟩
  intro x hx hxid
  have hx2 : x ∈ ((claim_new (release_old s b) rn nst).bookings.map
      (fun y => if y.booking_id = bid then
        { y with room_number := rn, check_in_date := ci, check_out_date := co,
                 status := nst,
                 price_per_night :=
                   get_room_price (claim_new (release_old s b) rn nst) rn }
      else y)) := hx
  rw [claim_new_bookings, release_old_bookings, List.mem_map] at hx2
  obtain ⟨y, hy, hfy⟩ := hx2
  by_cases hyid : y.booking_id = bid
  · rw [← hfy, if_pos hyid]
    exact hprice
  · rw [← hfy, if_neg hyid] at hxid
    exact absurd hxid hyid

/-- Witness for C10: moving the concrete booking B1 to the non-existent
room 999 succeeds and stores price 0. -/
theorem c10_ghost_room_update_witness :
    (update_booking c3W "B1" "999" 0 10 BStatus.Confirmed).1 = true ∧
    ∀ x ∈ (update_booking c3W "B1" "999" 0 10 BStatus.Confirmed).2.2.bookings,
      x.booking_id = "B1" → x.price_per_night = 0 :=
  c10_ghost_room_update c3W "B1" "999" 0 10 BStatus.Confirmed
    { booking_id := "B1", customer_id := "C1", room_number := "101",
      check_in_date := 0, check_out_date := 10,
      status := BStatus.Confirmed, price_per_night := 100 }
    (by decide) (by decide) (by decide) (by decide)

end Hotel
